import Mathlib

/-!
Shallow embedding of the rhythm-app classification pipeline.

Sources embedded here:
- `src/unsupervised_analysis.py` (Trainer): feature-column order, mean
  imputation of missing values, standardization, K-Means prediction.
- `src/rhythm_mapping.py` (Classifier): artifact loading state, the
  `CLUSTER_TO_STATE` lookup table, `classify_rhythm_state`.
- `src/app.py` (UI): the `RHYTHM_STATES` styling table and the error guard
  over classification results.

Numbers are modelled as rationals; a loaded artifact is modelled as an
opaque object whose method either returns a value or raises a Python
exception (`PyError`): `notFitted` stands for sklearn's `NotFittedError`,
`other msg` for any other exception with message `msg`.
-/

namespace RhythmApp

/-- A fault raised inside `transform` / `predict`: sklearn's
`NotFittedError`, or any other exception carrying a message. -/
inductive PyError where
  | notFitted
  | other (msg : String)
deriving DecidableEq

/-- `CLUSTER_FEATURES` from `unsupervised_analysis.py` line 19: the
feature-column order used by the Trainer. -/
def CLUSTER_FEATURES : List String :=
  ["screen_time_hours", "sleep_hours", "productivity_0_100"]

/-- Mean of the non-missing entries of a column (pandas `Series.mean()`
skips missing values). -/
def colMean (col : List (Option ℚ)) : ℚ :=
  (col.filterMap id).sum / (col.filterMap id).length

/-- `Series.fillna(mean)` for one column: when the column has at least one
non-missing value, every missing entry becomes the column mean and every
present entry is kept; an all-missing column is left unchanged (its pandas
mean is NaN and `fillna(NaN)` fills nothing). -/
def fillnaMean (col : List (Option ℚ)) : List (Option ℚ) :=
  if (col.filterMap id).isEmpty then col
  else col.map (fun v => some (v.getD (colMean col)))

/-- `unsupervised_analysis.py` lines 23-24: if the selected frame has any
missing value, `fillna(df.mean())` replaces each column's missing entries
by that column's own mean. The frame is a list of columns. -/
def data_for_clustering (cols : List (List (Option ℚ))) :
    List (List (Option ℚ)) :=
  if cols.any (fun c => c.any fun v => v.isNone) then cols.map fillnaMean
  else cols

/-- A loaded scaler artifact: its `transform` method on a single row either
returns the scaled row or raises. -/
structure Scaler where
  transform : List ℚ → Except PyError (List ℚ)

/-- A loaded cluster-model artifact: its `predict` method on a single
(scaled) row either returns a cluster index or raises. -/
structure KMeansModel where
  predict : List ℚ → Except PyError Nat

/-- `StandardScaler.transform`: per-feature `(x - mean) / scale`. -/
def standardScalerTransform (mean scale x : List ℚ) : List ℚ :=
  List.zipWith (fun v s => v / s) (List.zipWith (fun v m => v - m) x mean)
    scale

/-- A fitted `StandardScaler` with the given per-feature means and scales;
its `transform` never raises. -/
def fittedScaler (mean scale : List ℚ) : Scaler :=
  ⟨fun x => .ok (standardScalerTransform mean scale x)⟩

/-- A persisted scaler that is not in a usable fitted state: `transform`
raises `NotFittedError`. -/
def unfittedScaler : Scaler :=
  ⟨fun _ => .error .notFitted⟩

/-- Squared Euclidean distance between two vectors. -/
def sqDist (a b : List ℚ) : ℚ :=
  (List.zipWith (fun x y => (x - y) * (x - y)) a b).sum

/-- Index of the first minimal element (numpy `argmin` tie-breaking):
`i` is the index of the next candidate, `best`/`bd` the best so far. -/
def argminIdx : Nat → Nat → ℚ → List ℚ → Nat
  | _, best, _, [] => best
  | i, best, bd, d :: ds =>
      if d < bd then argminIdx (i + 1) i d ds
      else argminIdx (i + 1) best bd ds

/-- `KMeans.predict` on a single row: the index of the nearest centroid,
ties resolved to the lowest index. -/
def kmeansPredict (centroids : List (List ℚ)) (x : List ℚ) : Nat :=
  match centroids.map (sqDist x) with
  | [] => 0
  | d :: ds => argminIdx 1 0 d ds

/-- A fitted K-Means model with the given centroids; `predict` never
raises. -/
def fittedKMeans (centroids : List (List ℚ)) : KMeansModel :=
  ⟨fun x => .ok (kmeansPredict centroids x)⟩

/-- A persisted cluster model that is not in a usable fitted state:
`predict` raises `NotFittedError`. -/
def unfittedKMeans : KMeansModel :=
  ⟨fun _ => .error .notFitted⟩

/-- `CLUSTER_TO_STATE` from `rhythm_mapping.py` lines 18-25, as an
association list in source order. -/
def CLUSTER_TO_STATE : List (Nat × String) :=
  [(0, "Burnout State"),
   (1, "Flow State"),
   (2, "Balanced State"),
   (3, "Fatigue State"),
   (4, "Digital Drift State")]

/-- Python `dict.get(k, default)` over an association list. -/
def dictGet (d : List (Nat × String)) (k : Nat) (default : String) :
    String :=
  match d.find? (fun p => p.1 == k) with
  | some p => p.2
  | none => default

/-- The five semantic labels, in table order. -/
def STATE_LABELS : List String := CLUSTER_TO_STATE.map Prod.snd

/-- `rhythm_mapping.py` line 40: the user input row
`[screen_time, sleep_hours, productivity_score]`. -/
def user_input (sleep_hours screen_time productivity_score : ℚ) :
    List ℚ :=
  [screen_time, sleep_hours, productivity_score]

/-- The body of the `try` block of `classify_rhythm_state` together with
its `except` clauses, for already-loaded artifacts and an assembled input
row: transform, predict, look the index up, converting raised faults to
sentinel strings. -/
def classify_loaded (KMEANS_MODEL : KMeansModel) (SCALER : Scaler)
    (row : List ℚ) : String :=
  match SCALER.transform row with
  | .error .notFitted => "Model Not Fitted Error"
  | .error (.other e) => "Classification Error: " ++ e
  | .ok scaled_input =>
      match KMEANS_MODEL.predict scaled_input with
      | .error .notFitted => "Model Not Fitted Error"
      | .error (.other e) => "Classification Error: " ++ e
      | .ok cluster_index =>
          dictGet CLUSTER_TO_STATE cluster_index "Unknown State"

/-- `classify_rhythm_state` from `rhythm_mapping.py` lines 29-54. The two
module-level globals `KMEANS_MODEL` and `SCALER` are `none` when the
artifact files failed to load (lines 7-13) and are passed explicitly. -/
def classify_rhythm_state (KMEANS_MODEL : Option KMeansModel)
    (SCALER : Option Scaler)
    (sleep_hours screen_time productivity_score : ℚ) : String :=
  match KMEANS_MODEL, SCALER with
  | some km, some sc =>
      classify_loaded km sc
        (user_input sleep_hours screen_time productivity_score)
  | _, _ => "Classification Error"

/-- Per-label styling record of `app.py`'s `RHYTHM_STATES` values. -/
structure StateStyle where
  productivity : String
  screen_time : String
  sleep : String
  color : String
  icon : String
deriving DecidableEq

/-- `RHYTHM_STATES` from `app.py` lines 33-40, as an association list in
source order (the icon strings are copied byte-for-byte from the source,
which stores them mojibake-encoded). -/
def RHYTHM_STATES : List (String × StateStyle) :=
  [("Flow State", ⟨"High", "Low", "High", "#00A39C", "‚ö°"⟩),
   ("Digital Drift State", ⟨"Medium", "High", "Medium", "#8058a5", "üåÄ"⟩),
   ("Balanced State", ⟨"Medium", "Medium", "Medium", "#306DCC", "‚öñÔ∏è"⟩),
   ("Burnout State", ⟨"Low", "High", "Low", "#C44E52", "üî•"⟩),
   ("Fatigue State", ⟨"Medium", "Medium", "Low", "#FF8C00", "üò¥"⟩),
   ("Unknown State", ⟨"N/A", "N/A", "N/A", "gray", "‚ùì"⟩)]

/-- Python dict indexing `RHYTHM_STATES[name]`: `some` when the key is
present, `none` standing for a raised `KeyError`. -/
def rhythmStatesGet (name : String) : Option StateStyle :=
  (RHYTHM_STATES.find? (fun p => p.1 == name)).map Prod.snd

/-- Whether `pat` matches a leading segment of `l`. -/
def charsLeadMatch : List Char → List Char → Bool
  | [], _ => true
  | _ :: _, [] => false
  | a :: as, b :: bs => a == b && charsLeadMatch as bs

/-- Whether `pat` occurs contiguously somewhere in `l`. -/
def charsContain (pat : List Char) : List Char → Bool
  | [] => charsLeadMatch pat []
  | c :: cs => charsLeadMatch pat (c :: cs) || charsContain pat cs

/-- Python's `pat in s` substring test on strings. -/
def strContains (s pat : String) : Bool :=
  charsContain pat.toList s.toList

/-- The UI guard of `app.py` line 322:
`"Error" in state_name or state_name == "Unknown State"`. -/
def ui_is_error (state_name : String) : Bool :=
  strContains state_name "Error" || (state_name == "Unknown State")

/-- A failure sentinel of `classify_rhythm_state`: the artifact-unavailable
string, the not-fitted string, the unknown-index string, or a generic
classification error carrying a cause. -/
def IsSentinel (s : String) : Prop :=
  s = "Classification Error" ∨ s = "Model Not Fitted Error" ∨
    s = "Unknown State" ∨ ∃ e, s = "Classification Error: " ++ e

/-! ### Helper lemmas -/

theorem charsLeadMatch_append (pat l r : List Char)
    (h : charsLeadMatch pat l = true) : charsLeadMatch pat (l ++ r) = true := by
  induction pat generalizing l with
  | nil => rfl
  | cons a as ih =>
    cases l with
    | nil => simp [charsLeadMatch] at h
    | cons b bs =>
      simp only [charsLeadMatch, Bool.and_eq_true] at h ⊢
      exact ⟨h.1, ih bs h.2⟩

theorem charsContain_append_left (pat l r : List Char)
    (h : charsContain pat l = true) : charsContain pat (l ++ r) = true := by
  induction l with
  | nil =>
    cases pat with
    | nil =>
      cases r with
      | nil => rfl
      | cons c cs => simp [charsContain, charsLeadMatch]
    | cons a as => simp [charsContain, charsLeadMatch] at h
  | cons c cs ih =>
    simp only [charsContain, Bool.or_eq_true] at h
    simp only [List.cons_append, charsContain, Bool.or_eq_true]
    rcases h with h | h
    · exact Or.inl (charsLeadMatch_append pat (c :: cs) r h)
    · exact Or.inr (ih h)

theorem strContains_append_left (s t pat : String)
    (h : strContains s pat = true) : strContains (s ++ t) pat = true := by
  unfold strContains at h ⊢
  unfold String.toList at h ⊢
  rw [String.data_append]
  exact charsContain_append_left _ _ _ h

/-- Every sentinel result trips the UI error guard. -/
theorem sentinel_is_error {s : String} (h : IsSentinel s) :
    ui_is_error s = true := by
  rcases h with h | h | h | ⟨e, h⟩ <;> subst h
  · decide
  · decide
  · decide
  · unfold ui_is_error
    rw [strContains_append_left "Classification Error: " e "Error"
      (by decide)]
    rfl

/-- No legitimate label trips the UI error guard. -/
theorem label_not_error {s : String} (h : s ∈ STATE_LABELS) :
    ui_is_error s = false := by
  simp only [STATE_LABELS, CLUSTER_TO_STATE, List.map_cons, List.map_nil,
    List.mem_cons, List.not_mem_nil, or_false] at h
  rcases h with h | h | h | h | h <;> subst h <;> decide

theorem dictGet_mem_or_default (d : List (Nat × String)) (k : Nat)
    (df : String) : dictGet d k df ∈ d.map Prod.snd ∨ dictGet d k df = df := by
  unfold dictGet
  cases hf : d.find? (fun p => p.1 == k) with
  | none => exact Or.inr rfl
  | some p =>
    exact Or.inl (List.mem_map.mpr ⟨p, List.mem_of_find?_eq_some hf, rfl⟩)

theorem dictGet_not_mem (d : List (Nat × String)) (k : Nat) (df : String)
    (h : k ∉ d.map Prod.fst) : dictGet d k df = df := by
  unfold dictGet
  have hf : d.find? (fun p => p.1 == k) = none := by
    rw [List.find?_eq_none]
    intro p hp hpk
    exact h (List.mem_map.mpr ⟨p, hp, beq_iff_eq.mp hpk⟩)
  rw [hf]

/-- Case analysis on the result of `classify_rhythm_state`: it is one of
the five labels, or a failure sentinel. -/
theorem classify_result_cases (km : Option KMeansModel) (sc : Option Scaler)
    (sl st pr : ℚ) :
    classify_rhythm_state km sc sl st pr ∈ STATE_LABELS ∨
      IsSentinel (classify_rhythm_state km sc sl st pr) := by
  cases km with
  | none =>
    cases sc with
    | none => exact Or.inr (Or.inl rfl)
    | some s => exact Or.inr (Or.inl rfl)
  | some k =>
    cases sc with
    | none => exact Or.inr (Or.inl rfl)
    | some s =>
      show classify_loaded k s _ ∈ _ ∨ IsSentinel (classify_loaded k s _)
      unfold classify_loaded
      split
      · exact Or.inr (Or.inr (Or.inl rfl))
      · exact Or.inr (Or.inr (Or.inr (Or.inr ⟨_, rfl⟩)))
      · split
        · exact Or.inr (Or.inr (Or.inl rfl))
        · exact Or.inr (Or.inr (Or.inr (Or.inr ⟨_, rfl⟩)))
        · rename_i cluster_index heq
          rcases dictGet_mem_or_default CLUSTER_TO_STATE cluster_index
            "Unknown State" with hm | hd
          · exact Or.inl hm
          · exact Or.inr (by rw [hd]; exact Or.inr (Or.inr (Or.inl rfl)))

/-! ### Claim theorems -/

/-- C1: the classifier assembles the three inputs into the row
`[screen_time, sleep_hours, productivity_score]`, positions 0, 1, 2
respectively, which is positionally identical to the Trainer's column
order `["screen_time_hours", "sleep_hours", "productivity_0_100"]`, and
`classify_rhythm_state` hands exactly this row to the loaded scaler-model
pipeline. -/
theorem feature_order_contract (km : KMeansModel) (sc : Scaler)
    (sl st pr : ℚ) :
    user_input sl st pr = [st, sl, pr] ∧
    (user_input sl st pr)[0]? = some st ∧
    (user_input sl st pr)[1]? = some sl ∧
    (user_input sl st pr)[2]? = some pr ∧
    CLUSTER_FEATURES[0]? = some "screen_time_hours" ∧
    CLUSTER_FEATURES[1]? = some "sleep_hours" ∧
    CLUSTER_FEATURES[2]? = some "productivity_0_100" ∧
    classify_rhythm_state (some km) (some sc) sl st pr =
      classify_loaded km sc [st, sl, pr] :=
  ⟨rfl, rfl, rfl, rfl, rfl, rfl, rfl, rfl⟩

/-- C2: when either artifact failed to load (is `none`), every call —
including the boundary inputs — returns the unavailable sentinel, the
exact string `"Classification Error"`, and that string differs from every
generic classification-error result `"Classification Error: " ++ e`. -/
theorem classify_unavailable (km : Option KMeansModel) (sc : Option Scaler)
    (sl st pr : ℚ) (h : km = none ∨ sc = none) :
    classify_rhythm_state km sc sl st pr = "Classification Error" ∧
      ∀ e : String, "Classification Error" ≠ "Classification Error: " ++ e := by
  constructor
  · rcases h with h | h <;> subst h
    · cases sc <;> rfl
    · cases km <;> rfl
  · intro e he
    have hlen := congrArg String.length he
    rw [String.length_append] at hlen
    have h20 : "Classification Error".length = 20 := rfl
    have h22 : "Classification Error: ".length = 22 := rfl
    rw [h20, h22] at hlen
    omega

/-- Witness for C2 at the boundary input (24, 24, 100) with both
artifacts absent. -/
theorem classify_unavailable_witness :
    classify_rhythm_state none none 24 24 100 = "Classification Error" ∧
      ∀ e : String, "Classification Error" ≠ "Classification Error: " ++ e :=
  classify_unavailable none none 24 24 100 (Or.inl rfl)

/-- C3: for every artifact state and input, `classify_rhythm_state`
returns a string that is one of the five labels or one of the failure
sentinels — no internal fault escapes the boundary. -/
theorem classify_never_raises (km : Option KMeansModel) (sc : Option Scaler)
    (sl st pr : ℚ) :
    classify_rhythm_state km sc sl st pr ∈ STATE_LABELS ∨
      IsSentinel (classify_rhythm_state km sc sl st pr) :=
  classify_result_cases km sc sl st pr

/-- C4: the lookup table has exactly the keys 0..4, its labels are the
five fixed semantic labels in order (hence each used exactly once),
pairwise distinct and non-empty. -/
theorem cluster_table_wellformed :
    CLUSTER_TO_STATE.map Prod.fst = [0, 1, 2, 3, 4] ∧
    CLUSTER_TO_STATE.map Prod.snd =
      ["Burnout State", "Flow State", "Balanced State", "Fatigue State",
        "Digital Drift State"] ∧
    (CLUSTER_TO_STATE.map Prod.snd).Nodup ∧
    (CLUSTER_TO_STATE.map Prod.snd).all (fun l => !(l == "")) = true := by
  refine ⟨rfl, rfl, ?_, rfl⟩
  decide

/-- C5: in the Trainer's imputation step, a column that has at least one
missing and one non-missing entry comes out with every missing entry
replaced by the mean of the column's non-missing entries and every
non-missing entry unchanged. -/
theorem trainer_mean_imputation (cols : List (List (Option ℚ)))
    (k i : Nat) (col : List (Option ℚ)) (v0 : ℚ)
    (hc : cols[k]? = some col)
    (hmiss : col[i]? = some none)
    (hv0 : some v0 ∈ col) :
    ∃ col2 : List (Option ℚ),
      (data_for_clustering cols)[k]? = some col2 ∧
      col2[i]? = some (some (colMean col)) ∧
      ∀ (j : Nat) (w : ℚ), col[j]? = some (some w) →
        col2[j]? = some (some w) := by
  have hcmem : col ∈ cols := List.getElem?_mem hc
  have hnonemiss : col.any (fun v => v.isNone) = true :=
    List.any_eq_true.mpr ⟨none, List.getElem?_mem hmiss, rfl⟩
  have hguard : cols.any (fun d => d.any fun v => v.isNone) = true :=
    List.any_eq_true.mpr ⟨col, hcmem, hnonemiss⟩
  have hne : (col.filterMap id).isEmpty = false := by
    have hv : v0 ∈ col.filterMap id :=
      List.mem_filterMap.mpr ⟨some v0, hv0, rfl⟩
    cases hfm : col.filterMap id with
    | nil => rw [hfm] at hv; cases hv
    | cons a as => rfl
  have hfill : fillnaMean col =
      col.map (fun v => some (v.getD (colMean col))) := by
    unfold fillnaMean
    rw [if_neg (by simp [hne])]
  refine ⟨fillnaMean col, ?_, ?_, ?_⟩
  · unfold data_for_clustering
    rw [if_pos hguard, List.getElem?_map, hc]
    rfl
  · rw [hfill, List.getElem?_map, hmiss]
    rfl
  · intro j w hj
    rw [hfill, List.getElem?_map, hj]
    rfl

/-- Witness for C5: the single column `[some 1, none, some 3]`; the
missing middle entry becomes the non-missing mean `(1 + 3) / 2 = 2` and
the present entries are kept. -/
theorem trainer_mean_imputation_witness :
    ∃ col2 : List (Option ℚ),
      (data_for_clustering [[some (1 : ℚ), none, some 3]])[0]? =
        some col2 ∧
      col2[1]? = some (some (colMean [some (1 : ℚ), none, some 3])) ∧
      ∀ (j : Nat) (w : ℚ), ([some (1 : ℚ), none, some 3])[j]? =
          some (some w) →
        col2[j]? = some (some w) :=
  trainer_mean_imputation [[some 1, none, some 3]] 0 1
    [some 1, none, some 3] 1 rfl rfl (by simp)

/-- C6: `classify_rhythm_state` is deterministic — two runs against the
same artifacts and the same input triple produce the same result
string. -/
theorem classify_deterministic (km : Option KMeansModel) (sc : Option Scaler)
    (sl st pr : ℚ) (r₁ r₂ : String)
    (h₁ : r₁ = classify_rhythm_state km sc sl st pr)
    (h₂ : r₂ = classify_rhythm_state km sc sl st pr) :
    r₁ = r₂ := h₁.trans h₂.symm

/-- Witness for C6 at a concrete artifact state and input. -/
theorem classify_deterministic_witness :
    classify_rhythm_state none none 0 0 0 =
      classify_rhythm_state none none 0 0 0 :=
  classify_deterministic none none 0 0 0 _ _ rfl rfl

/-- C7: feature order is load-bearing — with a concrete fitted scaler,
five pairwise-distinct centroids and an input triple, swapping the sleep
and productivity values changes the returned label. -/
theorem feature_order_sensitive :
    ∃ (mean scale : List ℚ) (centroids : List (List ℚ)) (sl st pr : ℚ),
      centroids.length = 5 ∧ centroids.Nodup ∧
      classify_rhythm_state (some (fittedKMeans centroids))
          (some (fittedScaler mean scale)) sl st pr ≠
        classify_rhythm_state (some (fittedKMeans centroids))
          (some (fittedScaler mean scale)) pr st sl := by
  refine ⟨[0, 0, 0], [1, 1, 1],
    [[0, 0, 0], [100, 0, 0], [0, 100, 0], [0, 0, 100], [100, 100, 100]],
    100, 0, 0, rfl, ?_, ?_⟩
  · norm_num [List.nodup_cons]
  · have h1 : classify_rhythm_state
        (some (fittedKMeans
          [[0, 0, 0], [100, 0, 0], [0, 100, 0], [0, 0, 100],
            [100, 100, 100]]))
        (some (fittedScaler [0, 0, 0] [1, 1, 1])) 100 0 0 =
        "Balanced State" := by
      norm_num [classify_rhythm_state, classify_loaded, fittedScaler,
        fittedKMeans, standardScalerTransform, kmeansPredict, sqDist,
        argminIdx, user_input, dictGet, CLUSTER_TO_STATE, List.find?,
        List.zipWith]
      decide
    have h2 : classify_rhythm_state
        (some (fittedKMeans
          [[0, 0, 0], [100, 0, 0], [0, 100, 0], [0, 0, 100],
            [100, 100, 100]]))
        (some (fittedScaler [0, 0, 0] [1, 1, 1])) 0 0 100 =
        "Fatigue State" := by
      norm_num [classify_rhythm_state, classify_loaded, fittedScaler,
        fittedKMeans, standardScalerTransform, kmeansPredict, sqDist,
        argminIdx, user_input, dictGet, CLUSTER_TO_STATE, List.find?,
        List.zipWith]
      decide
    rw [h1, h2]
    decide

/-- C8: when the predicted cluster index is not a key of the lookup
table, `classify_rhythm_state` returns the "Unknown State" sentinel
instead of failing. -/
theorem classify_unknown_index (km : KMeansModel) (sc : Scaler)
    (sl st pr : ℚ) (scaled : List ℚ) (i : Nat)
    (hsc : sc.transform (user_input sl st pr) = Except.ok scaled)
    (hkm : km.predict scaled = Except.ok i)
    (hi : i ∉ CLUSTER_TO_STATE.map Prod.fst) :
    classify_rhythm_state (some km) (some sc) sl st pr =
      "Unknown State" := by
  show classify_loaded km sc (user_input sl st pr) = _
  unfold classify_loaded
  simp only [hsc, hkm]
  exact dictGet_not_mem _ _ _ hi

/-- Witness for C8: a fitted model with six centroids predicts index 5
for the input (9, 9, 9), which is absent from the table. -/
theorem classify_unknown_index_witness :
    classify_rhythm_state
        (some (fittedKMeans
          [[0, 0, 0], [1, 0, 0], [0, 1, 0], [0, 0, 1], [1, 1, 0],
            [9, 9, 9]]))
        (some (fittedScaler [0, 0, 0] [1, 1, 1])) 9 9 9 =
      "Unknown State" :=
  classify_unknown_index _ _ 9 9 9
    (standardScalerTransform [0, 0, 0] [1, 1, 1] (user_input 9 9 9)) 5
    rfl
    (by norm_num [fittedKMeans, standardScalerTransform, kmeansPredict,
      sqDist, argminIdx, user_input, List.zipWith])
    (by decide)

/-- C9: every label in the range of `CLUSTER_TO_STATE` is a key of the
UI's `RHYTHM_STATES` table, and any classification result that passes the
UI error guard has a defined `RHYTHM_STATES` entry (the indexed lookup
cannot raise `KeyError`). -/
theorem ui_lookup_total (km : Option KMeansModel) (sc : Option Scaler)
    (sl st pr : ℚ)
    (h : ui_is_error (classify_rhythm_state km sc sl st pr) = false) :
    STATE_LABELS.all (fun l => (rhythmStatesGet l).isSome) = true ∧
      ∃ style, rhythmStatesGet (classify_rhythm_state km sc sl st pr) =
        some style := by
  refine ⟨by decide, ?_⟩
  rcases classify_result_cases km sc sl st pr with hl | hs
  · simp only [STATE_LABELS, CLUSTER_TO_STATE, List.map_cons,
      List.map_nil, List.mem_cons, List.not_mem_nil, or_false] at hl
    rcases hl with h1 | h1 | h1 | h1 | h1 <;> rw [h1] <;> exact ⟨_, rfl⟩
  · rw [sentinel_is_error hs] at h
    cases h

/-- Witness for C9 at concrete fitted artifacts whose classification
result is the label "Balanced State". -/
theorem ui_lookup_total_witness :
    STATE_LABELS.all (fun l => (rhythmStatesGet l).isSome) = true ∧
      ∃ style, rhythmStatesGet (classify_rhythm_state
        (some (fittedKMeans
          [[0, 0, 0], [100, 0, 0], [0, 100, 0], [0, 0, 100],
            [100, 100, 100]]))
        (some (fittedScaler [0, 0, 0] [1, 1, 1])) 100 0 0) = some style :=
  ui_lookup_total _ _ 100 0 0 (by
    have h1 : classify_rhythm_state
        (some (fittedKMeans
          [[0, 0, 0], [100, 0, 0], [0, 100, 0], [0, 0, 100],
            [100, 100, 100]]))
        (some (fittedScaler [0, 0, 0] [1, 1, 1])) 100 0 0 =
        "Balanced State" := by
      norm_num [classify_rhythm_state, classify_loaded, fittedScaler,
        fittedKMeans, standardScalerTransform, kmeansPredict, sqDist,
        argminIdx, user_input, dictGet, CLUSTER_TO_STATE, List.find?,
        List.zipWith]
      decide
    rw [h1]
    decide)

/-- C10: the UI error test is sound and complete over the results of
`classify_rhythm_state`: a result trips the guard iff it is a failure
sentinel, and no legitimate label trips it. -/
theorem ui_guard_sound_complete (km : Option KMeansModel)
    (sc : Option Scaler) (sl st pr : ℚ) :
    (ui_is_error (classify_rhythm_state km sc sl st pr) = true ↔
      IsSentinel (classify_rhythm_state km sc sl st pr)) ∧
    STATE_LABELS.all (fun l => !(ui_is_error l)) = true := by
  constructor
  · constructor
    · intro h
      rcases classify_result_cases km sc sl st pr with hl | hs
      · rw [label_not_error hl] at h
        cases h
      · exact hs
    · exact sentinel_is_error
  · decide

end RhythmApp
